import Mathlib

/-!
Verification of the OS-abstraction and logging layer (mx_system.py, mx_logging.py).

The Python modules are shallowly embedded: Python strings are Lean strings,
fallible operations return an Except value whose error constructor models a
raised Python exception, and external OS facilities (signal delivery, the
filesystem, the C library path routines) are supplied as explicit environment
records so that the control flow of the Python functions can be stated and
proved over all environments.
-/

namespace Mx

/-- A raised Python exception, as far as the embedded fragment can produce one:
a TypeError (e.g. calling a function without a required positional argument,
or concatenating str and NoneType), or a SystemExit carrying an exit status
(raised by a successful call to abort). -/
inductive PyExn
  | typeError (msg : String)
  | systemExit (code : Int)
deriving DecidableEq

/-- The Python values that flow into abort as codeOrMessage: None, a plain
integer, or a string message. -/
inductive PyVal
  | none
  | int (n : Int)
  | str (s : String)
deriving DecidableEq

/-- An OS-level error (an OSError subclass in Python). -/
inductive OSErr
  | notFound
  | noSuchProcess
  | permission
  | other
deriving DecidableEq

/-- Embedding of Python str.startswith: a character-wise prefix test. -/
def pyStartswith (s pre : String) : Bool :=
  pre.toList.isPrefixOf s.toList

/-- Python str(x) applied to an Option String value: None prints as "None". -/
def pyStrOpt : Option String → String
  | Option.none => "None"
  | some s => s

/-! ## mx_logging.py -/

/-- A deferred verbose/very-verbose log call: the zero-argument replay thunk
appended to _opts._parsed_deferrables captures which function was called and
with which message. -/
inductive Deferred
  | dlogv (msg : Option String)
  | dlogvv (msg : Option String)
deriving DecidableEq

/-- The process-wide state read and written by the logging entry points:
the option flags of _opts (verbose and very_verbose are None until argument
parsing establishes them, modelled as Option.none), the queue
_opts._parsed_deferrables, and the lines printed to standard output so far. -/
structure LogState where
  verbose : Option Bool
  very_verbose : Option Bool
  quiet : Bool
  deferrables : List Deferred
  out : List String

/-- log(msg): returns without output when quiet is truthy; prints a blank
line (embedded as "") when msg is None, else prints str(msg). -/
def log (msg : Option String) (s : LogState) : LogState :=
  if s.quiet then s
  else
    match msg with
    | Option.none => { s with out := s.out ++ [""] }
    | some m => { s with out := s.out ++ [m] }

/-- logv(msg): when vars(_opts).get("verbose") is None, appends a replay
thunk to _opts._parsed_deferrables and returns; otherwise logs the message
when the verbose flag is truthy. -/
def logv (msg : Option String) (s : LogState) : LogState :=
  match s.verbose with
  | Option.none => { s with deferrables := s.deferrables ++ [Deferred.dlogv msg] }
  | some v => if v then log msg s else s

/-- logvv(msg): as logv, gated on very_verbose. -/
def logvv (msg : Option String) (s : LogState) : LogState :=
  match s.very_verbose with
  | Option.none => { s with deferrables := s.deferrables ++ [Deferred.dlogvv msg] }
  | some v => if v then log msg s else s

/-- Running one queued replay thunk re-invokes the captured call. -/
def runDeferred (d : Deferred) (s : LogState) : LogState :=
  match d with
  | Deferred.dlogv m => logv m s
  | Deferred.dlogvv m => logvv m s

/-- Run a list of replay thunks in order. -/
def replayList : List Deferred → LogState → LogState
  | [], s => s
  | d :: ds, s => replayList ds (runDeferred d s)

/-- Modelled from the spec: the replay mechanism itself is external to the
two modules ("replay mechanism itself is external", spec section 3) — once the
verbosity flags become available the queued deferred calls are replayed.
We model it as draining _opts._parsed_deferrables and invoking each thunk
in queue order. -/
def replay (s : LogState) : LogState :=
  replayList s.deferrables { s with deferrables := [] }

/-- The color-name to ANSI SGR code table of mx_logging.py. -/
def _ansi_color_table : List (String × String) :=
  [("black", "30"), ("red", "31"), ("green", "32"), ("yellow", "33"),
   ("blue", "34"), ("magenta", "35"), ("cyan", "36")]

/-- The escape sequence colorize builds from a looked-up SGR code: the code
gets ";1" appended when bright, and is wrapped as ESC [ code m. -/
def color_on (c : String) (bright : Bool) : String :=
  "\x1b[" ++ (if bright then c ++ ";1" else c) ++ "m"

/-- colorize(msg, color, bright, stream). The stream argument is represented
by whether it has an isatty attribute and what isatty() returns; sys.platform
is the platform argument. An unsupported color calls abort with a message,
which (abort being passed its required argument) raises SystemExit(1). -/
def colorize (msg : Option String) (color : String) (bright : Bool)
    (platform : String) (streamHasIsatty streamIsatty : Bool) :
    Except PyExn (Option String) :=
  match msg with
  | Option.none => Except.ok Option.none
  | some m =>
    match _ansi_color_table.lookup color with
    | Option.none => Except.error (PyExn.systemExit 1)
    | some c =>
      if pyStartswith m (color_on c bright) then Except.ok (some m)
      else
        let isUnix := pyStartswith platform "linux" ||
          (platform == "darwin" || platform == "freebsd")
        if isUnix && streamHasIsatty && streamIsatty then
          Except.ok (some (color_on c bright ++ m ++ "\x1b[0m"))
        else Except.ok (some m)

/-- The ambient data log_error reads: the platform string, the isatty status
of sys.stderr, and str(sys.stderr) — the textual representation of the
standard-error stream object, printed when msg is None. -/
structure StderrEnv where
  platform : String
  hasIsatty : Bool
  isatty : Bool
  stderrRepr : String

/-- log_error(msg): when msg is None the code executes
print(sys.stderr, file=sys.stderr), i.e. it prints str(sys.stderr) to the
error stream; otherwise it prints colorize(str(msg), stream=sys.stderr)
(default color red, bright). The result is the list of lines written to
standard error. -/
def log_error (env : StderrEnv) (msg : Option String) : Except PyExn (List String) :=
  match msg with
  | Option.none => Except.ok [env.stderrRepr]
  | some m =>
    match colorize (some m) "red" true env.platform env.hasIsatty env.isatty with
    | Except.ok r => Except.ok [pyStrOpt r]
    | Except.error e => Except.error e

/-- The ambient data warn reads: the _opts.warn flag and the stream/platform
facts colorize consults for sys.stderr. -/
structure WarnEnv where
  warnEnabled : Bool
  platform : String
  hasIsatty : Bool
  isatty : Bool

/-- warn(msg, context): a no-op unless _opts.warn; a supplied context is
resolved to a description string (callable result, __abort_context__ result,
or str(context) — represented here by the resolved string itself) and
prepended as description ++ ":\n"; the message is emitted through colorize
with color magenta, bright, on sys.stderr, with a "WARNING: " prefix. -/
def warn (env : WarnEnv) (msg : String) (context : Option String) :
    Except PyExn (List String) :=
  if env.warnEnabled then
    let m := match context with
      | some c => c ++ ":\n" ++ msg
      | Option.none => msg
    match colorize (some ("WARNING: " ++ m)) "magenta" true
        env.platform env.hasIsatty env.isatty with
    | Except.ok r => Except.ok [pyStrOpt r]
    | Except.error e => Except.error e
  else Except.ok []

/-! ## mx_system.py -/

/-- is_darwin(): sys.platform.startswith("darwin"), with sys.platform made
an explicit argument. -/
def is_darwin (platform : String) : Bool := pyStartswith platform "darwin"

/-- is_linux(): sys.platform.startswith("linux"). -/
def is_linux (platform : String) : Bool := pyStartswith platform "linux"

/-- is_openbsd(): sys.platform.startswith("openbsd"). -/
def is_openbsd (platform : String) : Bool := pyStartswith platform "openbsd"

/-- is_sunos(): sys.platform.startswith("sunos"). -/
def is_sunos (platform : String) : Bool := pyStartswith platform "sunos"

/-- is_windows(): sys.platform.startswith("win32"). -/
def is_windows (platform : String) : Bool := pyStartswith platform "win32"

/-- is_cygwin(): sys.platform.startswith("cygwin"). -/
def is_cygwin (platform : String) : Bool := pyStartswith platform "cygwin"

/-- get_os(): the prefix-matching cascade of mx_system.py. In the final else
branch the code executes abort() — but abort declares codeOrMessage as a
required positional parameter with no default, so Python raises
TypeError("abort() missing 1 required positional argument: codeOrMessage")
at the call, before any abort logic runs; the embedding returns that raise. -/
def get_os (platform : String) : Except PyExn String :=
  if is_darwin platform then Except.ok "darwin"
  else if is_linux platform then Except.ok "linux"
  else if is_openbsd platform then Except.ok "openbsd"
  else if is_sunos platform then Except.ok "solaris"
  else if is_windows platform then Except.ok "windows"
  else if is_cygwin platform then Except.ok "cygwin"
  else Except.error
    (PyExn.typeError "abort() missing 1 required positional argument: codeOrMessage")

/-- One OS signal delivery performed by kill_process: either os.killpg on a
process group id or os.kill on a single pid. -/
inductive SysCall
  | killpg (pgid : Nat) (sig : Nat)
  | kill (pid : Nat) (sig : Nat)
deriving DecidableEq

/-- The OS facilities kill_process uses, as an explicit environment:
os.getpgid may fail (e.g. no such process), and each delivery primitive may
fail with an OS-level error. -/
structure KillEnv where
  getpgid : Nat → Except OSErr Nat
  killpg : Nat → Nat → Except OSErr Unit
  kill : Nat → Nat → Except OSErr Unit

/-- kill_process(pid, sig). The call pgid = os.getpgid(pid) is executed
OUTSIDE the try block, so a failure there propagates as a raised exception
(modelled by Except.error). Inside the try block the code signals the whole
group when pgid == pid and the single process otherwise, returning True;
the bare except catches any failure, logs it, and returns False. The logvv
call inside the try writes to the log only and cannot fail in this model.
The result records the return value together with the signal deliveries
attempted. -/
def kill_process (env : KillEnv) (pid sig : Nat) :
    Except OSErr (Bool × List SysCall) :=
  match env.getpgid pid with
  | Except.error e => Except.error e
  | Except.ok pgid =>
    if pgid == pid then
      match env.killpg pgid sig with
      | Except.ok _ => Except.ok (true, [SysCall.killpg pgid sig])
      | Except.error _ => Except.ok (false, [SysCall.killpg pgid sig])
    else
      match env.kill pid sig with
      | Except.ok _ => Except.ok (true, [SysCall.kill pid sig])
      | Except.error _ => Except.ok (false, [SysCall.kill pid sig])

/-- The platform facts and C-library path routines safe_path consults:
is_windows(), _opts.verbose (which only gates a warning side effect, not the
returned value), os.path.normpath and os.path.isabs of the running platform. -/
structure PathEnv where
  isWindows : Bool
  verbose : Bool
  normpath : String → String
  isabs : String → Bool

/-- safe_path(path): the identity off Windows. On Windows: normpath, then if
absolute, a path starting with two backslashes is left alone when the next
characters (path[2:]) already start with the question-mark escape, and is
otherwise prefixed with the string literal "backslash backslash question-mark backslash UNC" (which denotes the
four characters backslash backslash question-mark backslash followed by UNC)
— note the source prepends it to the WHOLE path, including both leading
backslashes; a non-UNC absolute path is prefixed with the plain long-path escape. The final
_unicode(path) is str on Python 3, the identity on strings. The verbose
forward-slash warning writes to the log and does not change the result. -/
def safe_path (env : PathEnv) (path : String) : String :=
  if env.isWindows then
    let path := env.normpath path
    if env.isabs path then
      if pyStartswith path "\\\\" then
        if pyStartswith (path.drop 2) "?\\" then path
        else "\\\\?\\UNC" ++ path
      else "\\\\?\\" ++ path
    else path
  else path

/-- The filesystem facilities rmtree uses, as an explicit environment. The
shutil.rmtree library call is external and is modelled as a function of the
path and the onerror handler (the handler receives the failing path and the
active OSError; returning normally swallows, returning an error re-raises). -/
structure FS where
  pathEnv : PathEnv
  isdir : String → Bool
  remove : String → Except OSErr Unit
  chmod : String → Except OSErr Unit
  rmdir : String → Except OSErr Unit
  unlink : String → Except OSErr Unit
  shutilRmtree : String → (String → OSErr → Except OSErr Unit) → Except OSErr Unit

/-- The on_error handler rmtree installs: with ignore_errors a pass-through
swallowing everything; on Windows a recovery that chmods the failing path
writable and retries the delete (rmdir for a directory, unlink otherwise);
elsewhere a bare raise re-raising the active exception. -/
def on_error (fs : FS) (ignore_errors : Bool) : String → OSErr → Except OSErr Unit :=
  if ignore_errors then fun _ _ => Except.ok ()
  else if fs.pathEnv.isWindows then fun p _ =>
    match fs.chmod p with
    | Except.error e => Except.error e
    | Except.ok _ => if fs.isdir p then fs.rmdir p else fs.unlink p
  else fun _ e => Except.error e

/-- rmtree(path, ignore_errors): routes path through safe_path, then deletes
a directory via shutil.rmtree with the installed handler, and otherwise falls
back to os.remove; an OSError from os.remove is passed to the handler, whose
normal return swallows it and whose raise propagates. -/
def rmtree (fs : FS) (path0 : String) (ignore_errors : Bool) : Except OSErr Unit :=
  let path := safe_path fs.pathEnv path0
  let handler := on_error fs ignore_errors
  if fs.isdir path then fs.shutilRmtree path handler
  else
    match fs.remove path with
    | Except.ok _ => Except.ok ()
    | Except.error e => handler path e

/-- The resolution of the context argument of abort (lines 283-291): None yields
the empty string; a supplied context resolves to its description (callable
result, __abort_context__ result, or str(context)), represented by the
resolved string itself. -/
def contextMsg : Option String → String
  | Option.none => ""
  | some s => s

/-- abort(codeOrMessage, context): the final-message and exit-status
resolution (lines 283-305). The subprocess teardown and the verbose
traceback that precede it act on external process state and the log only and
do not affect the resolved message or status. A successful resolution
.ok (m, c) means the code executes log_error(m) and raises SystemExit(c).
When codeOrMessage is an int, the message is the context string and the
status the int; otherwise the branch elif contextMsg: tests TRUTHINESS of
the context string, so a nonempty context yields context ++ ":\n" ++
codeOrMessage with status 1 (a TypeError when codeOrMessage is None, since
str and NoneType cannot be concatenated), and an empty or absent context
yields codeOrMessage itself with status 1. -/
def abort (codeOrMessage : PyVal) (context : Option String) :
    Except PyExn (PyVal × Int) :=
  let ctx := contextMsg context
  match codeOrMessage with
  | PyVal.int n => Except.ok (PyVal.str ctx, n)
  | other =>
    if ctx ≠ "" then
      match other with
      | PyVal.str s => Except.ok (PyVal.str (ctx ++ ":\n" ++ s), 1)
      | _ => Except.error (PyExn.typeError "can only concatenate str (not NoneType) to str")
    else Except.ok (other, 1)

/-- abort_or_warn(message, should_abort, context): when should_abort the
source executes abort() with NO arguments — abort requires codeOrMessage, so
Python raises TypeError at the call and the message is never logged;
otherwise warn(message, context) runs. -/
def abort_or_warn (env : WarnEnv) (message : String) (should_abort : Bool)
    (context : Option String) : Except PyExn (List String) :=
  if should_abort then
    Except.error
      (PyExn.typeError "abort() missing 1 required positional argument: codeOrMessage")
  else warn env message context

/-! ## Concrete environments used to evaluate the embedded code -/

/-- A Windows PathEnv whose normpath and isabs agree with ntpath.normpath and
ntpath.isabs at every input the evaluation theorems apply them to (those
inputs are already-normalized absolute Windows paths, on which
ntpath.normpath is the identity and ntpath.isabs returns True). -/
def winPathEnv : PathEnv :=
  { isWindows := true, verbose := false, normpath := fun p => p, isabs := fun _ => true }

/-- A non-Windows PathEnv (safe_path never consults the other fields there). -/
def nonWinPathEnv : PathEnv :=
  { isWindows := false, verbose := false, normpath := fun p => p, isabs := fun _ => true }

/-- A non-Windows filesystem on which the target is not a directory and
os.remove fails with a not-found OSError. -/
def fsNotFound : FS :=
  { pathEnv := nonWinPathEnv, isdir := fun _ => false,
    remove := fun _ => Except.error OSErr.notFound,
    chmod := fun _ => Except.ok (), rmdir := fun _ => Except.ok (),
    unlink := fun _ => Except.ok (),
    shutilRmtree := fun _ _ => Except.ok () }

/-- An OS on which os.getpgid itself fails (e.g. the pid does not exist). -/
def killEnvLookupFail : KillEnv :=
  { getpgid := fun _ => Except.error OSErr.noSuchProcess,
    killpg := fun _ _ => Except.ok (), kill := fun _ _ => Except.ok () }

/-- An OS on which os.getpgid succeeds: pid 7 is its own group leader, every
other pid belongs to group 3; signal delivery succeeds. -/
def killEnvOk : KillEnv :=
  { getpgid := fun p => Except.ok (if p == 7 then 7 else 3),
    killpg := fun _ _ => Except.ok (), kill := fun _ _ => Except.ok () }

/-- Warnings enabled, with sys.stderr not an interactive Unix terminal, so
colorize passes messages through unchanged. -/
def warnEnvPlain : WarnEnv :=
  { warnEnabled := true, platform := "win32", hasIsatty := false, isatty := false }

/-- A stderr environment with a realistic non-empty str(sys.stderr). -/
def stderrEnvPlain : StderrEnv :=
  { platform := "linux", hasIsatty := true, isatty := true,
    stderrRepr := "<_io.TextIOWrapper name=<stderr> mode=w encoding=utf-8>" }

/-- A logging state with quiet mode off and both verbosity flags known. -/
def logStateQuietOff : LogState :=
  { verbose := some true, very_verbose := some true, quiet := false,
    deferrables := [], out := [] }

/-- A start state with quiet mode ON and the verbose flag not yet
established. -/
def quietStart : LogState :=
  { verbose := Option.none, very_verbose := some false, quiet := true,
    deferrables := [], out := [] }

/-- A start state with quiet mode off and neither verbosity flag
established. -/
def freshStart : LogState :=
  { verbose := Option.none, very_verbose := Option.none, quiet := false,
    deferrables := [], out := [] }

/-! ## Helper lemmas -/

/-- A list is a Boolean prefix of itself followed by anything. -/
theorem isPrefixOf_append_self (l t : List Char) : l.isPrefixOf (l ++ t) = true := by
  induction l with
  | nil => simp [List.isPrefixOf]
  | cons c l ih => simp [List.isPrefixOf, ih]

/-- str.startswith holds of a string and any extension of it. -/
theorem pyStartswith_append (a b : String) : pyStartswith (a ++ b) a = true := by
  have h : (a ++ b).toList = a.toList ++ b.toList := by simp [String.toList]
  rw [pyStartswith, h]
  exact isPrefixOf_append_self a.toList b.toList

/-! ## Claim theorems -/

/-- C1 (corrected at one point): the exit-status and message resolution of
abort. An integer codeOrMessage becomes the exit status with the resolved
context string as message; a string codeOrMessage exits with status 1 and is
prefixed by the context description and ":\n" exactly when that description
is NONEMPTY (the source tests the truthiness of contextMsg, not whether a
context was supplied); the four concrete behaviours named by the claim all
hold. -/
theorem c1_abort_resolution (n : Int) (s : String) (ctx : Option String) :
    abort (PyVal.int n) ctx = Except.ok (PyVal.str (contextMsg ctx), n) ∧
    abort (PyVal.str s) ctx = Except.ok (PyVal.str
      (if contextMsg ctx = "" then s else contextMsg ctx ++ ":\n" ++ s), 1) ∧
    abort (PyVal.int 0) Option.none = Except.ok (PyVal.str "", 0) ∧
    abort (PyVal.str "boom") Option.none = Except.ok (PyVal.str "boom", 1) ∧
    abort (PyVal.str "boom") (some "ctx") = Except.ok (PyVal.str "ctx:\nboom", 1) ∧
    abort (PyVal.int 5) Option.none = Except.ok (PyVal.str "", 5) := by
  refine ⟨rfl, ?_, rfl, rfl, rfl, rfl⟩
  by_cases hc : contextMsg ctx = ""
  · simp [abort, hc]
  · simp [abort, hc]

/-- C1 counterexample: a supplied context whose resolved description is the
empty string behaves like an absent context — abort("boom", context="")
logs "boom", not ":\nboom" as the claim states. -/
theorem c1_counterexample :
    abort (PyVal.str "boom") (some "") = Except.ok (PyVal.str "boom", 1) ∧
    ("boom" : String) ≠ ":\nboom" :=
  ⟨rfl, by decide⟩

/-- C3: safe_path evaluated on the embedded source. Off Windows it is the
identity for every path and every environment. On Windows, an absolute local
path C:\a\b becomes \\?\C:\a\b and a path already carrying the \\?\ escape
is returned unchanged, as the claim states; but the absolute UNC path
\\server\share\x becomes \\?\UNC\\server\share\x — the source prepends the
escape to the whole path without dropping one of the two leading
backslashes, so the result has a doubled backslash after UNC, not the
\\?\UNC\server\share\x the claim (and the MSDN long-path format the
docstring cites) requires. -/
theorem c3_safe_path_eval :
    (∀ (np : String → String) (ab : String → Bool) (v : Bool) (p : String),
      safe_path { isWindows := false, verbose := v, normpath := np, isabs := ab } p = p) ∧
    safe_path winPathEnv "\\\\server\\share\\x" = "\\\\?\\UNC\\\\server\\share\\x" ∧
    safe_path winPathEnv "C:\\a\\b" = "\\\\?\\C:\\a\\b" ∧
    safe_path winPathEnv "\\\\?\\C:\\a\\b" = "\\\\?\\C:\\a\\b" :=
  ⟨fun _ _ _ _ => rfl, rfl, rfl, rfl⟩

/-- C4: get_os evaluated on the embedded source. Each supported platform
identifier prefix maps to its canonical name, and an unrecognized
identifier never yields a default value — but the failure is a TypeError
(the source calls abort() without its required codeOrMessage argument), not
an "unsupported platform" abort. -/
theorem c4_get_os_eval :
    get_os "darwin" = Except.ok "darwin" ∧
    get_os "linux" = Except.ok "linux" ∧
    get_os "linux2" = Except.ok "linux" ∧
    get_os "openbsd6" = Except.ok "openbsd" ∧
    get_os "sunos5" = Except.ok "solaris" ∧
    get_os "win32" = Except.ok "windows" ∧
    get_os "cygwin" = Except.ok "cygwin" ∧
    get_os "freebsd" = Except.error
      (PyExn.typeError "abort() missing 1 required positional argument: codeOrMessage") :=
  ⟨rfl, rfl, rfl, rfl, rfl, rfl, rfl, rfl⟩

/-- C5: abort_or_warn evaluated on the embedded source. For every
environment, message and context, should_abort = true raises TypeError at
the argumentless abort() call — the message is never logged and no abort
path runs; should_abort = false routes to warn, shown on concrete inputs
(warnings enabled, plain stream). -/
theorem c5_abort_or_warn_eval :
    (∀ (env : WarnEnv) (message : String) (context : Option String),
      abort_or_warn env message true context = Except.error
        (PyExn.typeError "abort() missing 1 required positional argument: codeOrMessage")) ∧
    abort_or_warn warnEnvPlain "boom" false (some "ctx") =
      Except.ok ["WARNING: ctx:\nboom"] ∧
    abort_or_warn warnEnvPlain "boom" false Option.none =
      Except.ok ["WARNING: boom"] :=
  ⟨fun _ _ _ => rfl, rfl, rfl⟩

/-- C7: abort(None) evaluated on the embedded source. None is not an int, so
resolution falls into the message branch: the logged value is None and the
exit status is 1 — not the status 0 promised by the claim and by the
docstring of abort. -/
theorem c7_abort_none_eval :
    abort PyVal.none Option.none = Except.ok (PyVal.none, 1) ∧ (1 : Int) ≠ 0 :=
  ⟨rfl, by decide⟩

/-- C2 counterexample: kill_process DOES raise for a pid whose process-group
lookup fails — os.getpgid(pid) runs outside the try block, so its OSError
propagates out of kill_process instead of being logged and turned into a
False return. -/
theorem c2_counterexample :
    kill_process killEnvLookupFail 7 15 = Except.error OSErr.noSuchProcess :=
  rfl

/-- C2 (amended): provided the process-group lookup succeeds, kill_process
never raises; it signals the whole group (os.killpg) exactly when the
resolved group id equals pid and only the single process (os.kill)
otherwise, and it returns True precisely when that delivery succeeded. -/
theorem c2_kill_process_amended (env : KillEnv) (pid sig pgid : Nat)
    (h : env.getpgid pid = Except.ok pgid) :
    (∃ b calls, kill_process env pid sig = Except.ok (b, calls)) ∧
    (pgid = pid →
      ∃ b, kill_process env pid sig = Except.ok (b, [SysCall.killpg pid sig]) ∧
        (b = true ↔ env.killpg pid sig = Except.ok ())) ∧
    (pgid ≠ pid →
      ∃ b, kill_process env pid sig = Except.ok (b, [SysCall.kill pid sig]) ∧
        (b = true ↔ env.kill pid sig = Except.ok ())) := by
  refine ⟨?_, ?_, ?_⟩
  · by_cases hpg : pgid = pid
    · subst hpg
      cases hkp : env.killpg pgid sig with
      | ok u =>
        exact ⟨true, [SysCall.killpg pgid sig], by simp [kill_process, h, hkp]⟩
      | error er =>
        exact ⟨false, [SysCall.killpg pgid sig], by simp [kill_process, h, hkp]⟩
    · cases hkp : env.kill pid sig with
      | ok u =>
        exact ⟨true, [SysCall.kill pid sig], by simp [kill_process, h, hkp, hpg]⟩
      | error er =>
        exact ⟨false, [SysCall.kill pid sig], by simp [kill_process, h, hkp, hpg]⟩
  · intro hpg
    subst hpg
    cases hkp : env.killpg pgid sig with
    | ok u =>
      cases u
      exact ⟨true, by simp [kill_process, h, hkp], by simp [hkp]⟩
    | error er =>
      exact ⟨false, by simp [kill_process, h, hkp], by simp [hkp]⟩
  · intro hpg
    cases hkp : env.kill pid sig with
    | ok u =>
      cases u
      exact ⟨true, by simp [kill_process, h, hkp, hpg], by simp [hkp]⟩
    | error er =>
      exact ⟨false, by simp [kill_process, h, hkp, hpg], by simp [hkp]⟩

/-- C2 witness: a concrete environment in which the lookup succeeds, at
pid 7 (its own group leader). -/
theorem c2_witness :
    ∃ b calls, kill_process killEnvOk 7 9 = Except.ok (b, calls) :=
  (c2_kill_process_amended killEnvOk 7 9 7 rfl).1

/-- C6 counterexample: on a non-Windows filesystem with ignore_errors left
False, a not-found OSError from the single-file fallback removal is passed
to the bare-raise handler and propagates out of rmtree — it is not swallowed
regardless of the ignore_errors flag and the platform, as the claim states. -/
theorem c6_counterexample :
    rmtree fsNotFound "f" false = Except.error OSErr.notFound :=
  rfl

/-- C6 (amended): when the target is not a directory and os.remove fails,
the error is swallowed exactly when ignore_errors is set; with
ignore_errors unset, a non-Windows platform re-raises it (bare raise in the
handler), and on Windows the handler retries by clearing the read-only bit
and unlinking, so the error is replaced by the outcome of that recovery, not
silently swallowed. -/
theorem c6_rmtree_amended (fs : FS) (path : String) (e : OSErr)
    (h1 : fs.isdir (safe_path fs.pathEnv path) = false)
    (h2 : fs.remove (safe_path fs.pathEnv path) = Except.error e) :
    rmtree fs path true = Except.ok () ∧
    (fs.pathEnv.isWindows = false → rmtree fs path false = Except.error e) ∧
    (fs.pathEnv.isWindows = true → rmtree fs path false =
      (match fs.chmod (safe_path fs.pathEnv path) with
       | Except.error e2 => Except.error e2
       | Except.ok _ => fs.unlink (safe_path fs.pathEnv path))) := by
  refine ⟨?_, ?_, ?_⟩
  · simp [rmtree, on_error, h1, h2]
  · intro hw
    simp [rmtree, on_error, h1, h2, hw]
  · intro hw
    simp [rmtree, on_error, h1, h2, hw]

/-- C6 witness: the amended swallowing clause at a concrete filesystem. -/
theorem c6_witness : rmtree fsNotFound "f" true = Except.ok () :=
  (c6_rmtree_amended fsNotFound "f" OSErr.notFound rfl rfl).1

/-- C8 counterexample: a logv call deferred while verbose was not yet
established, then replayed with verbose established as True but quiet mode
on, prints the message zero times — not exactly once as the claim states for
a set flag at replay time. -/
theorem c8_counterexample :
    (replay { logv (some "boom") quietStart with verbose := some true }).out = [] ∧
    (replay { logv (some "boom") quietStart with verbose := some true }).out.count
      "boom" = 0 :=
  ⟨rfl, rfl⟩

/-- C8 (amended): a logv (resp. logvv) call made while the verbose (resp.
very-verbose) flag is not yet established prints nothing and enqueues one
replay thunk; once the flag is established and the queue replayed, the
message is printed exactly once if the flag is set AND quiet mode is off at
replay time, and not at all otherwise, and the queue is drained. -/
theorem c8_deferred_amended (s : LogState) (m : String) (b : Bool)
    (hv : s.verbose = Option.none) (hvv : s.very_verbose = Option.none)
    (hd : s.deferrables = []) :
    (logv (some m) s).out = s.out ∧
    (logv (some m) s).deferrables = [Deferred.dlogv (some m)] ∧
    (replay { logv (some m) s with verbose := some b }).out =
      s.out ++ (if b && !s.quiet then [m] else []) ∧
    (replay { logv (some m) s with verbose := some b }).deferrables = [] ∧
    (logvv (some m) s).out = s.out ∧
    (logvv (some m) s).deferrables = [Deferred.dlogvv (some m)] ∧
    (replay { logvv (some m) s with very_verbose := some b }).out =
      s.out ++ (if b && !s.quiet then [m] else []) ∧
    (replay { logvv (some m) s with very_verbose := some b }).deferrables = [] := by
  refine ⟨?_, ?_, ?_, ?_, ?_, ?_, ?_, ?_⟩ <;>
    cases b <;> by_cases hq : s.quiet <;>
      simp [logv, logvv, log, replay, replayList, runDeferred, hv, hvv, hd, hq]

/-- C8 witness: the deferral clause at a concrete fresh state. -/
theorem c8_witness : (logv (some "hi") freshStart).out = freshStart.out :=
  (c8_deferred_amended freshStart "hi" true rfl rfl rfl).1

/-- C9: colorize is idempotent for every message, supported color,
brightness, platform, and stream: the first application either passes the
message through or wraps it in the escape sequence, and the second
application returns its input unchanged (by the already-colorized prefix
guard in the wrapped case); colorize(None) is None. -/
theorem c9_colorize_idempotent (color : String) (bright : Bool)
    (platform : String) (hasI tty : Bool) (code : String)
    (h : _ansi_color_table.lookup color = some code) (m : String) :
    colorize Option.none color bright platform hasI tty = Except.ok Option.none ∧
    ∃ r, colorize (some m) color bright platform hasI tty = Except.ok (some r) ∧
      colorize (some r) color bright platform hasI tty = Except.ok (some r) := by
  constructor
  · rfl
  · have hself : ∀ x : String, pyStartswith x (color_on code bright) = true →
        colorize (some x) color bright platform hasI tty = Except.ok (some x) := by
      intro x hx
      simp [colorize, h, hx]
    by_cases hpre : pyStartswith m (color_on code bright) = true
    · exact ⟨m, hself m hpre, hself m hpre⟩
    · by_cases hu : ((pyStartswith platform "linux" ||
          (platform == "darwin" || platform == "freebsd")) && hasI && tty) = true
      · refine ⟨color_on code bright ++ m ++ "\x1b[0m", ?_, ?_⟩
        · simp [colorize, h, hpre, hu]
        · apply hself
          rw [String.append_assoc]
          exact pyStartswith_append (color_on code bright) (m ++ "\x1b[0m")
      · exact ⟨m, by simp [colorize, h, hpre, hu], by simp [colorize, h, hpre, hu]⟩

/-- C9 witness: idempotence at a concrete colored message on an interactive
Unix stream. -/
theorem c9_witness :
    ∃ r, colorize (some "hi") "red" true "linux" true true = Except.ok (some r) ∧
      colorize (some r) "red" true "linux" true true = Except.ok (some r) :=
  (c9_colorize_idempotent "red" true "linux" true true "31" rfl "hi").2

/-- C10: log_error with msg None prints str(sys.stderr) — the textual
representation of the standard-error stream object — followed by a newline
to standard error, never a blank line (given that representation is
nonempty), while log with msg None prints a blank line when quiet mode is
off. -/
theorem c10_log_error_none (env : StderrEnv) (s : LogState)
    (h1 : env.stderrRepr ≠ "") (h2 : s.quiet = false) :
    log_error env Option.none = Except.ok [env.stderrRepr] ∧
    log_error env Option.none ≠ Except.ok [""] ∧
    (log Option.none s).out = s.out ++ [""] := by
  refine ⟨rfl, ?_, by simp [log, h2]⟩
  intro hEq
  have h3 : (Except.ok [env.stderrRepr] : Except PyExn (List String)) =
      Except.ok [""] := hEq
  simp at h3
  exact h1 h3

/-- C10 witness: at a concrete stderr representation and a non-quiet state. -/
theorem c10_witness :
    log_error stderrEnvPlain Option.none = Except.ok [stderrEnvPlain.stderrRepr] :=
  (c10_log_error_none stderrEnvPlain logStateQuietOff (by decide) rfl).1

end Mx
